import Mathlib

/-!
Shallow embedding of the SiriusXM proxy (`src/sxm.py`, class `SiriusXM`).

The embedding models the Python program faithfully:
* Python exceptions are an explicit `PyErr` value threaded through a state
  monad `M`; `try/except (E1, E2)` is `tryE body handler [e1, e2]`.
* JSON values are the inductive `Json`; subscripting (`d['k']`, `l[i]`,
  negative indices included) follows Python semantics (`KeyError`,
  `IndexError`, `TypeError`).
* The shared `requests.Session` cookie jar, the per-channel playlist cache
  (`self.playlists`), the channel-catalog cache (`self.channels`), and the
  trace of upstream calls live in the state `St`.
* Upstream behaviour (HTTP status, response JSON/text, Set-Cookie headers,
  and the Adafruit telemetry outcome) is an oracle `Env`, a function of the
  call descriptor and the global call counter.
* Python's unbounded recursion in `get_playlist` is modelled with an
  explicit fuel argument; fuel exhaustion surfaces as the pseudo-exception
  `PyErr.outOfFuel`, which no `except` clause catches.
* Request query parameters (`assetGUID`, `time`, `timestamp`, `token`,
  `gupId`, ...) are elided from the wire calls, but the cookie-accessor
  calls that build them (`get_sxmak_token`, `get_gup_id`) are kept, since
  they can raise.
-/

/-- Python exception classes that the program can raise or catch.
`outOfFuel` is not a Python exception: it marks exhaustion of the fuel that
models Python's unbounded recursion, and no `except` clause catches it.
`missingSchema` models `requests.exceptions.MissingSchema`, raised by
`session.get(None)`. `aioRequestError` models `Adafruit_IO.RequestError`;
`aioOtherError` stands for any other exception out of `aio.send_data`. -/
inductive PyErr where
  | keyError
  | indexError
  | typeError
  | valueError
  | attributeError
  | missingSchema
  | aioRequestError
  | aioOtherError
  | outOfFuel
deriving DecidableEq, BEq

/-- JSON values (numbers restricted to integers; the program only ever
compares the integral fields `status` and `code`). -/
inductive Json where
  | null
  | bool (b : Bool)
  | num (n : Int)
  | str (s : String)
  | arr (xs : List Json)
  | obj (fields : List (String × Json))

/-- Python truthiness of a JSON value (`if not data`). -/
def jTruthy : Json → Bool
  | .null => false
  | .bool b => b
  | .num n => n != 0
  | .str s => s != ""
  | .arr xs => !xs.isEmpty
  | .obj fs => !fs.isEmpty

/-- Truthiness of a value that may be Python `None`. -/
def optTruthy : Option Json → Bool
  | none => false
  | some j => jTruthy j

/-- Python `j == s` against a string literal: false on any non-string. -/
def pyEqStr (j : Json) (s : String) : Bool :=
  match j with
  | .str a => a = s
  | _ => false

/-- Python `j == n` against an integer literal: false on any non-number. -/
def pyEqNum (j : Json) (n : Int) : Bool :=
  match j with
  | .num a => a = n
  | _ => false

/-- Equality of JSON scalars used as dict keys (the playlist cache is keyed
by the `channelId` value taken from the catalog JSON). Containers are never
used as keys (they would be unhashable in Python). -/
def jKeyEq : Json → Json → Bool
  | .str a, .str b => a = b
  | .num a, .num b => a = b
  | .bool a, .bool b => a = b
  | .null, .null => true
  | _, _ => false

/-- Python list indexing with negative indices (`l[i]`, `l[-1]`). -/
def pyIndex (xs : List Json) (i : Int) : Except PyErr Json :=
  let n : Int := xs.length
  let j := if i < 0 then i + n else i
  if h : 0 ≤ j ∧ j < n then
    .ok (xs.get ⟨j.toNat, by
      rcases h with ⟨h0, h1⟩
      simp only [n] at h1
      omega⟩)
  else .error .indexError

/-- Python subscript `v[k]`: dict lookup (`KeyError` on a missing key),
list/str indexing (`IndexError` out of range), `TypeError` otherwise. -/
def pySub (v : Json) (k : Json) : Except PyErr Json :=
  match v, k with
  | .obj fs, .str s =>
    match fs.lookup s with
    | some x => .ok x
    | none => .error .keyError
  | .obj _, .num _ => .error .keyError
  | .obj _, .bool _ => .error .keyError
  | .obj _, .null => .error .typeError
  | .obj _, _ => .error .typeError
  | .arr xs, .num i => pyIndex xs i
  | .arr _, _ => .error .typeError
  | .str s, .num i =>
    (pyIndex (s.data.map (fun c => .str (String.mk [c]))) i)
  | .str _, _ => .error .typeError
  | _, _ => .error .typeError

/-- Dict subscript with a string-literal key (`d['k']`). -/
def pySubS (v : Json) (k : String) : Except PyErr Json := pySub v (.str k)

/-- Python `d.get(k, default)`: `AttributeError` if `d` is not a dict. -/
def pyDictGet (v : Json) (k : String) (dflt : Json) : Except PyErr Json :=
  match v with
  | .obj fs => .ok ((fs.lookup k).getD dflt)
  | _ => .error .attributeError

/-- Python `d.get(k)` (default `None`). -/
def pyDictGetN (v : Json) (k : String) : Except PyErr (Option Json) :=
  match v with
  | .obj fs => .ok (fs.lookup k)
  | _ => .error .attributeError

/-- Python `s.lower()` (over the char list, so that it reduces in the
kernel; ASCII semantics, which covers the identifiers compared here). -/
def pyToLower (s : String) : String := String.mk (s.data.map Char.toLower)

/-- Python `v.lower()`: `AttributeError` on a non-string. -/
def pyLower (v : Json) : Except PyErr Json :=
  match v with
  | .str s => .ok (.str (pyToLower s))
  | _ => .error .attributeError

/-! ### Python string helpers (over `List Char`) -/

/-- Split at the first occurrence of `c`: `some (before, after)`. -/
def lSplitOnce (c : Char) : List Char → Option (List Char × List Char)
  | [] => none
  | x :: xs =>
    if x = c then some ([], xs)
    else
      match lSplitOnce c xs with
      | some (a, b) => some (x :: a, b)
      | none => none

/-- Python `s.split(c, 1)`. -/
def pySplit1 (s : String) (c : Char) : List String :=
  match lSplitOnce c s.data with
  | none => [s]
  | some (a, b) => [String.mk a, String.mk b]

/-- Python `s.split(c, 2)`. -/
def pySplit2 (s : String) (c : Char) : List String :=
  match lSplitOnce c s.data with
  | none => [s]
  | some (a, b) =>
    match lSplitOnce c b with
    | none => [String.mk a, String.mk b]
    | some (b1, b2) => [String.mk a, String.mk b1, String.mk b2]

/-- Python `s.rsplit(c, 1)[0]`: everything before the last `c`
(`s` itself when `c` does not occur). -/
def pyRsplitHead (s : String) (c : Char) : String :=
  match lSplitOnce c s.data.reverse with
  | none => s
  | some (_, preRev) => String.mk preRev.reverse

/-- Python whitespace for `rstrip`. -/
def isPySpace (c : Char) : Bool :=
  c = ' ' || c = '\t' || c = '\n' || c = '\r' || c = '\x0b' || c = '\x0c'

/-- Python `s.rstrip()`. -/
def pyRstrip (s : String) : String :=
  String.mk (s.data.reverse.dropWhile isPySpace).reverse

/-- Does `p` occur as an initial segment of `l`? -/
def lStarts : List Char → List Char → Bool
  | [], _ => true
  | _ :: _, [] => false
  | p :: ps, x :: xs => p = x && lStarts ps xs

/-- Suffix test over char lists. -/
def strEndsWith (s suffx : String) : Bool :=
  lStarts suffx.data.reverse s.data.reverse

/-- Fueled non-overlapping left-to-right replacement (Python `s.replace`).
The fuel starts at the input length; every step consumes at least one
input character. -/
def replaceAux (pat rep : List Char) : Nat → List Char → List Char
  | 0, l => l
  | fuel + 1, l =>
    if lStarts pat l && !pat.isEmpty then
      rep ++ replaceAux pat rep fuel (l.drop pat.length)
    else
      match l with
      | [] => []
      | x :: xs => x :: replaceAux pat rep fuel xs

/-- Python `s.replace(pat, rep)` (for non-empty `pat`). -/
def pyReplace (s pat rep : String) : String :=
  String.mk (replaceAux pat.data rep.data s.data.length s.data)

/-- Python `s[n:]`. -/
def pyDropStr (s : String) (n : Nat) : String := String.mk (s.data.drop n)

/-- List index on split results (`parts[i]`, non-negative index). -/
def pyIdxStr (parts : List String) (i : Nat) : Except PyErr String :=
  match parts.get? i with
  | some v => .ok v
  | none => .error .indexError

/-- Split on a separator char, Python `s.split(c)` (no maxsplit). -/
def lSplitAll (c : Char) : List Char → List (List Char)
  | [] => [[]]
  | x :: xs =>
    let r := lSplitAll c xs
    if x = c then [] :: r
    else
      match r with
      | h :: t => (x :: h) :: t
      | [] => [[x]]

/-- Python `text.split('\n')`. -/
def splitNl (s : String) : List String := (lSplitAll '\n' s.data).map String.mk

/-- Python `'\n'.join(lines)`. -/
def joinNl (lines : List String) : String := String.intercalate "\n" lines

/-! ### `urllib.parse.unquote` and `json.loads` -/

/-- Hex digit value. -/
def hexVal (c : Char) : Option Nat :=
  if '0' ≤ c ∧ c ≤ '9' then some (c.toNat - '0'.toNat)
  else if 'a' ≤ c ∧ c ≤ 'f' then some (c.toNat - 'a'.toNat + 10)
  else if 'A' ≤ c ∧ c ≤ 'F' then some (c.toNat - 'A'.toNat + 10)
  else none

/-- Percent-decoding (`urllib.parse.unquote`, ASCII fragment: multi-byte
UTF-8 sequences are out of scope for the cookies modelled here). -/
def pctDecode : List Char → List Char
  | '%' :: a :: b :: r =>
    match hexVal a, hexVal b with
    | some x, some y => Char.ofNat (16 * x + y) :: pctDecode r
    | _, _ => '%' :: pctDecode (a :: b :: r)
  | c :: r => c :: pctDecode r
  | [] => []

/-- `urllib.parse.unquote`. -/
def pyUnquote (s : String) : String := String.mk (pctDecode s.data)

/-- Digit run at the head of the input. -/
def takeDigits : List Char → List Char × List Char
  | [] => ([], [])
  | c :: cs =>
    if '0' ≤ c ∧ c ≤ '9' then
      let (d, r) := takeDigits cs
      (c :: d, r)
    else ([], c :: cs)

/-- Numeric value of a digit list. -/
def digitsToNat : List Char → Nat
  | [] => 0
  | ds => ds.foldl (fun a c => a * 10 + (c.toNat - '0'.toNat)) 0

/-- Skip JSON whitespace. -/
def skipWs : List Char → List Char
  | c :: cs => if isPySpace c then skipWs cs else c :: cs
  | [] => []

/-- JSON string body up to the closing quote (escape sequences are out of
scope for the cookie payloads modelled here). -/
def parseStrBody : List Char → Option (List Char × List Char)
  | [] => none
  | '"' :: r => some ([], r)
  | c :: r =>
    match parseStrBody r with
    | some (s, r') => some (c :: s, r')
    | none => none

mutual

/-- Fueled recursive-descent JSON parser (the model of `json.loads`). -/
def parseJson : Nat → List Char → Option (Json × List Char)
  | 0, _ => none
  | fuel + 1, cs =>
    match skipWs cs with
    | 'n' :: 'u' :: 'l' :: 'l' :: r => some (.null, r)
    | 't' :: 'r' :: 'u' :: 'e' :: r => some (.bool true, r)
    | 'f' :: 'a' :: 'l' :: 's' :: 'e' :: r => some (.bool false, r)
    | '"' :: r =>
      match parseStrBody r with
      | some (s, r') => some (.str (String.mk s), r')
      | none => none
    | '[' :: r =>
      match skipWs r with
      | ']' :: r' => some (.arr [], r')
      | _ =>
        match parseElems fuel r with
        | some (xs, r') => some (.arr xs, r')
        | none => none
    | '{' :: r =>
      match skipWs r with
      | '}' :: r' => some (.obj [], r')
      | _ =>
        match parseFields fuel r with
        | some (fs, r') => some (.obj fs, r')
        | none => none
    | '-' :: r =>
      match takeDigits r with
      | ([], _) => none
      | (ds, r') => some (.num (-(digitsToNat ds : Int)), r')
    | c :: r =>
      if '0' ≤ c ∧ c ≤ '9' then
        match takeDigits (c :: r) with
        | (ds, r') => some (.num (digitsToNat ds : Int), r')
      else none
    | [] => none

/-- Comma-separated JSON array elements up to `]`. -/
def parseElems : Nat → List Char → Option (List Json × List Char)
  | 0, _ => none
  | fuel + 1, cs =>
    match parseJson fuel cs with
    | none => none
    | some (j, r) =>
      match skipWs r with
      | ',' :: r' =>
        match parseElems fuel r' with
        | some (xs, r'') => some (j :: xs, r'')
        | none => none
      | ']' :: r' => some ([j], r')
      | _ => none

/-- Comma-separated JSON object fields up to `}`. -/
def parseFields : Nat → List Char → Option (List (String × Json) × List Char)
  | 0, _ => none
  | fuel + 1, cs =>
    match skipWs cs with
    | '"' :: r =>
      match parseStrBody r with
      | none => none
      | some (k, r1) =>
        match skipWs r1 with
        | ':' :: r2 =>
          match parseJson fuel r2 with
          | none => none
          | some (v, r3) =>
            match skipWs r3 with
            | ',' :: r4 =>
              match parseFields fuel r4 with
              | some (fs, r5) => some ((String.mk k, v) :: fs, r5)
              | none => none
            | '}' :: r4 => some ([(String.mk k, v)], r4)
            | _ => none
        | _ => none
    | _ => none

end

/-- `json.loads`: a parse failure or trailing garbage is a `ValueError`
(`json.JSONDecodeError` subclasses `ValueError`). -/
def jsonLoads (s : String) : Except PyErr Json :=
  match parseJson (2 * s.data.length + 2) s.data with
  | some (j, rest) => if (skipWs rest).isEmpty then .ok j else .error .valueError
  | none => .error .valueError

/-! ### Cookie jar, upstream oracle, state, and the effect monad -/

/-- The shared cookie jar: association list, cookie name to value. -/
abbrev Jar := List (String × String)

/-- Set (or overwrite) one cookie. -/
def jarSet (j : Jar) (n v : String) : Jar :=
  if (List.lookup n j).isSome then
    j.map (fun p => if p.1 = n then (n, v) else p)
  else j ++ [(n, v)]

/-- Apply the Set-Cookie headers of a response to the jar (the `requests`
session merges response cookies into the jar on every call). -/
def updJar (j : Jar) (cs : List (String × String)) : Jar :=
  match cs with
  | [] => j
  | (n, v) :: rest => updJar (jarSet j n v) rest

/-- Cookie presence (`'NAME' in self.session.cookies`). -/
def jarHas (j : Jar) (n : String) : Bool := (List.lookup n j).isSome

/-- `self.session.cookies['NAME']`: `KeyError` when absent. -/
def jarIdx (j : Jar) (n : String) : Except PyErr String :=
  match List.lookup n j with
  | some v => .ok v
  | none => .error .keyError

/-- The *authenticated* cookie predicate: jar holds `AWSALB` and
`JSESSIONID` (`SiriusXM.is_session_authenticated`). -/
def authJar (j : Jar) : Bool := jarHas j "AWSALB" && jarHas j "JSESSIONID"

/-- Descriptor of one outbound call: a REST call (method string), a CDN
fetch (full URL), or an Adafruit telemetry publish. -/
inductive UpCall where
  | rest (method : String)
  | cdn (url : String)
  | aio
deriving DecidableEq, BEq

/-- One upstream response: HTTP status, parsed JSON body (`none` models a
`res.json()` decode failure), text body, Set-Cookie headers, and — for
telemetry slots — whether `aio.send_data` raises. -/
structure UpResp where
  status : Nat := 200
  json : Option Json := none
  text : String := ""
  setCookies : List (String × String) := []
  aioFail : Option PyErr := none

/-- The upstream oracle: response for the `i`-th call with descriptor `c`
(the counter is global across all calls of a run). -/
def Env := UpCall → Nat → UpResp

/-- Mutable state of the `SiriusXM` instance plus the call trace.
`playlists` is keyed by the `channelId` JSON value and stores the result of
`get_playlist_variant_url`, which can be Python `None`. `calls` lists the
outbound calls, most recent first. `idx` is the global call counter. -/
structure St where
  jar : Jar
  playlists : List (Json × Option String)
  channels : Option Json
  idx : Nat
  calls : List UpCall

/-- State-and-exception monad over the upstream oracle. Exceptions carry
the state at raise time (Python side effects persist past an exception). -/
def M (α : Type) : Type := Env → St → Except PyErr α × St

def M.pure {α : Type} (a : α) : M α := fun _ s => (.ok a, s)

def M.bind {α β : Type} (x : M α) (f : α → M β) : M β := fun env s =>
  match x env s with
  | (.ok a, s') => f a env s'
  | (.error e, s') => (.error e, s')

instance : Monad M where
  pure := M.pure
  bind := M.bind

/-- `try: body except (E1, ...): handler` — the handler runs on exactly the
listed exception classes, from the state at raise time. -/
def tryE {α : Type} (body : M α) (handler : M α) (catches : List PyErr) : M α :=
  fun env s =>
    match body env s with
    | (.error e, s') => if catches.contains e then handler env s' else (.error e, s')
    | r => r

/-- Lift a pure `Except` computation (a Python expression that may raise). -/
def liftE {α : Type} (e : Except PyErr α) : M α := fun _ s => (e, s)

/-- Raise an exception. -/
def raiseM {α : Type} (e : PyErr) : M α := fun _ s => (.error e, s)

/-- Read a projection of the state. -/
def readSt {α : Type} (f : St → α) : M α := fun _ s => (.ok (f s), s)

/-- State after one HTTP call through the shared session: counter bumped,
call traced, response cookies merged into the jar. -/
def stepSt (s : St) (c : UpCall) (r : UpResp) : St :=
  { s with idx := s.idx + 1, calls := c :: s.calls, jar := updJar s.jar r.setCookies }

/-- Perform one HTTP call through the shared session. -/
def httpCall (c : UpCall) : M UpResp := fun env s =>
  (.ok (env c s.idx), stepSt s c (env c s.idx))

/-- Perform one `aio.send_data` telemetry publish (independent client: it
never touches the cookie jar; it may raise). -/
def aioSend : M Unit := fun env s =>
  let r := env .aio s.idx
  let s' := { s with idx := s.idx + 1, calls := UpCall.aio :: s.calls }
  match r.aioFail with
  | none => (.ok (), s')
  | some e => (.error e, s')

/-- Store `self.playlists[channel_id] = v` (dict update: replace-or-insert;
modelled as dedup-prepend, which `plFind` reads back first-match). -/
def plSet (cid : Json) (v : Option String) : M Unit := fun _ s =>
  (.ok (), { s with
    playlists := (cid, v) :: s.playlists.filter (fun p => !jKeyEq p.1 cid) })

/-- `channel_id in self.playlists` / `self.playlists[channel_id]` lookups. -/
def plFind (pl : List (Json × Option String)) (cid : Json) : Option (Option String) :=
  (pl.find? (fun p => jKeyEq p.1 cid)).map (·.2)

namespace SXM

/-- `SiriusXM.LIVE_PRIMARY_HLS`. -/
def LIVE_PRIMARY_HLS : String := "https://siriusxm-priprodlive.akamaized.net"

/-- `SiriusXM.is_logged_in`. -/
def is_logged_in : M Bool := readSt (fun s => jarHas s.jar "SXMAUTHNEW")

/-- `SiriusXM.is_session_authenticated`. -/
def is_session_authenticated : M Bool := readSt (fun s => authJar s.jar)

/-- Shared body of `SiriusXM.get` / `SiriusXM.post` after the
authentication guard: issue the REST call, `None` unless HTTP 200 with a
decodable JSON body. Query params / post data are elided (see header). -/
def restCall (method : String) : M (Option Json) := do
  let r ← httpCall (.rest method)
  if r.status ≠ 200 then M.pure none
  else M.pure r.json

/-- `SiriusXM.login`: POST `modify/authentication` with
`authenticate=False`; success iff the body parses, `status == 1`, and the
*logged-in* cookie (`SXMAUTHNEW`) is now present. -/
def login : M Bool := do
  let data ← restCall "modify/authentication"
  match data with
  | none => M.pure false
  | some d =>
    if !jTruthy d then M.pure false
    else
      tryE
        (do
          let st ← liftE (pySubS d "ModuleListResponse" >>= (pySubS · "status"))
          let li ← is_logged_in
          M.pure (pyEqNum st 1 && li))
        (M.pure false) [.keyError]

/-- Status check on the `resume` response (lines 205-212): `False` on a
missing or falsy body; else `status == 1 && is_session_authenticated()`,
with `KeyError` mapped to `False`. -/
def resumeCheck (data : Option Json) : M Bool :=
  match data with
  | none => M.pure false
  | some d =>
    if !jTruthy d then M.pure false
    else
      tryE
        (do
          let st ← liftE (pySubS d "ModuleListResponse" >>= (pySubS · "status"))
          let sa ← is_session_authenticated
          M.pure (pyEqNum st 1 && sa))
        (M.pure false) [.keyError]

/-- The resume sub-protocol of `SiriusXM.authenticate` (lines 183-212):
POST `resume?OAtrial=false`, then check its response. -/
def resumePhase : M Bool := do
  let data ← restCall "resume?OAtrial=false"
  resumeCheck data

/-- `SiriusXM.authenticate`: ensure logged-in (calling `login` if needed),
then run the resume sub-protocol. -/
def authenticate : M Bool := do
  let li ← is_logged_in
  let lok ← if li then M.pure true else login
  if !lok then M.pure false
  else resumePhase

/-- `SiriusXM.get`: optionally authenticate first (returning `None` if
authentication fails), then the REST GET. -/
def get (method : String) (auth : Bool) : M (Option Json) :=
  if auth then do
    let sa ← is_session_authenticated
    if sa then restCall method
    else do
      let a ← authenticate
      if a then restCall method else M.pure none
  else restCall method

/-- `SiriusXM.post`: same guard as `get` (the dead `req = 'wassup'` and the
`print` are ignored). -/
def post (method : String) (auth : Bool) : M (Option Json) :=
  if auth then do
    let sa ← is_session_authenticated
    if sa then restCall method
    else do
      let a ← authenticate
      if a then restCall method else M.pure none
  else restCall method

/-- Read `self.session.cookies[n]` (raises `KeyError` when absent). -/
def jarGetM (n : String) : M String := fun _ s => (jarIdx s.jar n, s)

/-- `SiriusXM.get_sxmak_token`: cookie value after the first `=` and before
the first `,`; `None` on `KeyError`/`IndexError`. -/
def get_sxmak_token : M (Option String) :=
  tryE
    (do
      let v ← jarGetM "SXMAKTOKEN"
      let p ← liftE (pyIdxStr (pySplit1 v '=') 1)
      let q ← liftE (pyIdxStr (pySplit1 p ',') 0)
      M.pure (some q))
    (M.pure none) [.keyError, .indexError]

/-- `SiriusXM.get_gup_id`: URL-decode the `SXMDATA` cookie, `json.loads`,
subscript `['gupId']`; only `KeyError` and `ValueError` are caught. -/
def get_gup_id : M (Option Json) :=
  tryE
    (do
      let v ← jarGetM "SXMDATA"
      let j ← liftE (jsonLoads (pyUnquote v))
      let g ← liftE (pySubS j "gupId")
      M.pure (some g))
    (M.pure none) [.keyError, .valueError]

/-- Chain of Python subscripts `d[k1][k2]...` (dict keys and list indices). -/
def jPath (d : Json) : List Json → Except PyErr Json
  | [] => .ok d
  | k :: ks => pySub d k >>= (jPath · ks)

/-- `SiriusXM.get_song_info`: one `tune/now-playing-live` GET, unguarded
extraction of station/song/artist (the `logging` calls evaluate the
subscripts), then the Adafruit publish inside
`try ... except Adafruit_IO.RequestError`. Returns the raw data only when
`full_data` is set, else `None`. -/
def get_song_info (_guid _channel_id : Json) (fullData : Bool) : M (Option Json) := do
  let data ← get "tune/now-playing-live" true
  match data with
  | none => M.pure none
  | some d =>
    if !jTruthy d then M.pure none
    else do
      let musicdata ← liftE (jPath d [.str "ModuleListResponse", .str "moduleList",
        .str "modules", .num 0, .str "moduleResponse", .str "liveChannelData"])
      let _station ← liftE (jPath musicdata [.str "markerLists", .num 0, .str "markers",
        .num 0, .str "episode", .str "longTitle"])
      let _song ← liftE (jPath musicdata [.str "markerLists", .num 3, .str "markers",
        .num (-1), .str "cut", .str "title"])
      let _artist ← liftE (jPath musicdata [.str "markerLists", .num 3, .str "markers",
        .num (-1), .str "cut", .str "artists", .num 0, .str "name"])
      let _ ← tryE
        (do
          let _t ← liftE (jPath musicdata [.str "markerLists", .num 3, .str "markers",
            .num (-1), .str "cut", .str "title"])
          let _a ← liftE (jPath musicdata [.str "markerLists", .num 3, .str "markers",
            .num (-1), .str "cut", .str "artists", .num 0, .str "name"])
          aioSend)
        (M.pure ()) [.aioRequestError]
      if fullData then M.pure (some d) else M.pure none

/-- First line of the master playlist body whose `rstrip` ends in `.m3u8`,
joined as a sibling of the master URL (`SiriusXM.get_playlist_variant_url`,
lines 398-401). -/
def firstVariant (url : String) : List String → Option String
  | [] => none
  | x :: rest =>
    if strEndsWith (pyRstrip x) ".m3u8" then
      some (pyRsplitHead url '/' ++ "/" ++ pyRstrip x)
    else firstVariant url rest

/-- `SiriusXM.get_playlist_variant_url`: build the token/gupId params (the
accessors can raise), GET the master playlist, `None` unless HTTP 200, else
the first `.m3u8` line resolved against the master URL's directory. -/
def get_playlist_variant_url (url : String) : M (Option String) := do
  let _token ← get_sxmak_token
  let _gup ← get_gup_id
  let r ← httpCall (.cdn url)
  if r.status ≠ 200 then M.pure none
  else M.pure (firstVariant url (splitNl r.text))

/-- The `for playlist_info in playlists` loop of `SiriusXM.get_playlist_url`
(lines 378-384): on the first `size == 'LARGE'` entry, substitute the
`%Live_Primary_HLS%` placeholder, resolve the variant URL, store it in
`self.playlists[channel_id]` and return the stored entry. -/
def plLoop (channelId : Json) : List Json → M (Option String)
  | [] => M.pure none
  | pinfo :: rest => do
      let sz ← liftE (pySubS pinfo "size")
      if pyEqStr sz "LARGE" then do
        let u ← liftE (pySubS pinfo "url")
        match u with
        | .str us => do
          let purl := pyReplace us "%Live_Primary_HLS%" LIVE_PRIMARY_HLS
          let v ← get_playlist_variant_url purl
          let _ ← plSet channelId v
          let stored ← readSt (fun s => plFind s.playlists channelId)
          match stored with
          | some w => M.pure w
          | none => raiseM .keyError
        | _ => raiseM .attributeError
      else plLoop channelId rest

/-- `SiriusXM.get_playlist_url`: song-info side call first, then the cache
short-circuit, then `tune/now-playing-live`; codes 201/208 re-authenticate
and retry with the attempt budget decremented (initial 5); code 100
proceeds to the `hlsAudioInfos` loop; anything else is `None`. -/
def get_playlist_url_body (guid channelId : Json) (useCache : Bool)
    (onExpired : M (Option String)) : M (Option String) := do
    let _ ← get_song_info guid channelId false
    let cached ← readSt (fun s => plFind s.playlists channelId)
    match (if useCache then cached else none) with
    | some v => M.pure v
    | none => do
      let data ← get "tune/now-playing-live" true
      match data with
      | none => M.pure none
      | some d =>
        if !jTruthy d then M.pure none
        else do
          let parsed ← tryE
            (do
              let s1 ← liftE (jPath d [.str "ModuleListResponse", .str "status"])
              let msg ← liftE (jPath d [.str "ModuleListResponse", .str "messages",
                .num 0, .str "message"])
              let code ← liftE (jPath d [.str "ModuleListResponse", .str "messages",
                .num 0, .str "code"])
              M.pure (some (s1, msg, code)))
            (M.pure none) [.keyError, .indexError]
          match parsed with
          | none => M.pure none
          | some (_, _, code) =>
            if pyEqNum code 201 || pyEqNum code 208 then onExpired
            else if !pyEqNum code 100 then M.pure none
            else do
              let pls ← tryE
                (do
                  let p ← liftE (jPath d [.str "ModuleListResponse", .str "moduleList",
                    .str "modules", .num 0, .str "moduleResponse",
                    .str "liveChannelData", .str "hlsAudioInfos"])
                  M.pure (some p))
                (M.pure none) [.keyError, .indexError]
              match pls with
              | none => M.pure none
              | some pj =>
                match pj with
                | .arr xs => plLoop channelId xs
                | _ => raiseM .typeError

/-- `SiriusXM.get_playlist_url` at an explicit attempt budget: the 201/208
(*session-expired*) branch re-authenticates and retries with
`max_attempts - 1` while `max_attempts > 0`, else returns `None`. -/
def get_playlist_url (guid channelId : Json) (useCache : Bool) : Nat → M (Option String)
  | 0 => get_playlist_url_body guid channelId useCache (M.pure none)
  | n + 1 => get_playlist_url_body guid channelId useCache
      (do
        let a ← authenticate
        if a then get_playlist_url guid channelId useCache n
        else M.pure none)

/-- Result of `SiriusXM.get_channels`: either the cached/parsed `channels`
JSON, the empty list of the parse-error path, or — on a failed catalog
POST — the literal Python tuple `(None, None)` (source line 482). -/
inductive ChannelsRes where
  | fromJson (j : Json)
  | nonePair

/-- Fetch-and-cache body of `SiriusXM.get_channels` (the `if not
self.channels` branch). On a failed POST it returns the `(None, None)`
tuple; on a JSON-shape mismatch it returns `[]` without caching. -/
def fetchChannels : M ChannelsRes := do
  let data ← post "get" true
  match data with
  | none => M.pure .nonePair
  | some d =>
    if !jTruthy d then M.pure .nonePair
    else do
      let parsed ← tryE
        (do
          let cs ← liftE (jPath d [.str "ModuleListResponse", .str "moduleList",
            .str "modules", .num 0, .str "moduleResponse", .str "contentData",
            .str "channelListing", .str "channels"])
          let _ ← (fun _ s => ((.ok ()), { s with channels := some cs }) : M Unit)
          M.pure (some cs))
        (M.pure none) [.keyError, .indexError]
      match parsed with
      | none => M.pure (.fromJson (.arr []))
      | some cs => M.pure (.fromJson cs)

/-- `SiriusXM.get_channels`: lazy catalog download, cached for the process
lifetime once truthy. -/
def get_channels : M ChannelsRes := do
  let cache ← readSt (fun s => s.channels)
  match cache with
  | some j =>
    if jTruthy j then M.pure (.fromJson j)
    else fetchChannels
  | none => fetchChannels

/-- Python iteration over the value returned by `get_channels`: a list
yields its elements, a string its characters, a dict its keys; the
`(None, None)` tuple yields two Python `None`s. -/
def chIter : ChannelsRes → Except PyErr (List (Option Json))
  | .nonePair => .ok [none, none]
  | .fromJson j =>
    match j with
    | .arr xs => .ok (xs.map some)
    | .str s => .ok (s.data.map (fun c => some (.str (String.mk [c]))))
    | .obj fs => .ok (fs.map (fun p => some (.str p.1)))
    | _ => .error .typeError

/-- The per-record match of `SiriusXM.get_channel` (source line 495):
`x.get('name', '').lower() == name or x.get('channelId', '').lower() ==
name or x.get('siriusChannelNumber') == name`, short-circuiting, where
`name` is the lowercased input. `x.get` on Python `None` raises
`AttributeError`. -/
def chanMatch (nm : String) : Option Json → Except PyErr Bool
  | none => .error .attributeError
  | some x => do
      let a ← pyDictGet x "name" (.str "")
      let al ← pyLower a
      if pyEqStr al nm then .ok true
      else do
        let b ← pyDictGet x "channelId" (.str "")
        let bl ← pyLower b
        if pyEqStr bl nm then .ok true
        else do
          let cn ← pyDictGetN x "siriusChannelNumber"
          match cn with
          | none => .ok false
          | some v => .ok (pyEqStr v nm)

/-- The `for x in self.get_channels()` loop of `SiriusXM.get_channel`. -/
def chanLoop (nm : String) : List (Option Json) → M (Option Json × Option Json)
  | [] => M.pure (none, none)
  | x :: rest => do
      let c ← liftE (chanMatch nm x)
      if c then
        match x with
        | some xj => do
            let g ← liftE (pySubS xj "channelGuid")
            let cid ← liftE (pySubS xj "channelId")
            M.pure (some g, some cid)
        | none => raiseM .attributeError
      else chanLoop nm rest

/-- `SiriusXM.get_channel`: lowercase the input, iterate the catalog,
return `(channelGuid, channelId)` of the first match, `(None, None)` when
the loop finishes without one. -/
def get_channel (name : String) : M (Option Json × Option Json) := do
  let cs ← get_channels
  let items ← liftE (chIter cs)
  chanLoop (pyToLower name) items

/-- `base_path` computation of `SiriusXM.get_playlist` (lines 430-431):
`base_url = url.rsplit('/', 1)[0]`, then `base_url[8:].split('/', 1)[1]`
(an `IndexError` when the dropped prefix leaves no `/`). -/
def basePathOf (url : String) : Except PyErr String :=
  let base_url := pyRsplitHead url '/'
  match pySplit1 (pyDropStr base_url 8) '/' with
  | [_, bp] => .ok bp
  | _ => .error .indexError

/-- The playlist rewriter of `SiriusXM.get_playlist` (lines 429-436):
every line whose `rstrip` ends in `.aac` becomes
`'{base_path}/{line}'` (original line, trailing whitespace included);
all other lines are unchanged; lines are re-joined with `\n`. -/
def rewritePlaylist (url text : String) : Except PyErr String :=
  match basePathOf url with
  | .error e => .error e
  | .ok base_path =>
    .ok (joinNl ((splitNl text).map (fun l =>
      if strEndsWith (pyRstrip l) ".aac" then base_path ++ "/" ++ l else l)))

/-- Tail of `SiriusXM.get_playlist` from `res = self.session.get(url)` on
(lines 419-436): on HTTP 403 recurse via `recurse name False`; on any other
non-200 return `None`; on 200 rewrite the body. -/
def get_playlist_fetch (recurse : String → Bool → M (Option String))
    (name u : String) : M (Option String) := do
  let r ← httpCall (.cdn u)
  if r.status = 403 then recurse name false
  else if r.status ≠ 200 then M.pure none
  else liftE (rewritePlaylist u r.text)

/-- `SiriusXM.get_playlist`: resolve the channel, obtain the playlist URL
(`max_attempts=5`), build the token/gupId params, GET the variant URL and
dispatch on the status. `session.get(None)` — the case where
`get_playlist_url` returned `None` — raises `MissingSchema`. The `fuel`
argument models Python's unbounded 403-recursion; `fuel = 0` is the
`outOfFuel` pseudo-exception. -/
def get_playlist : Nat → String → Bool → M (Option String)
  | 0, _, _ => raiseM .outOfFuel
  | fuel + 1, name, useCache => do
      let gc ← get_channel name
      if !optTruthy gc.1 || !optTruthy gc.2 then M.pure none
      else do
        let url ← get_playlist_url (gc.1.getD .null) (gc.2.getD .null) useCache 5
        let _token ← get_sxmak_token
        let _gup ← get_gup_id
        match url with
        | none => raiseM .missingSchema
        | some u => get_playlist_fetch (get_playlist fuel) name u

/-- `SiriusXM.get_segment`: GET `{LIVE_PRIMARY_HLS}/{path}`; on 403 with
budget left, call `get_playlist(path.split('/', 2)[1], False)` for its side
effects and retry with the budget decremented; on exhausted budget or any
other non-200, return `None`; on 200 return the body. `fuel` is passed to
the inner `get_playlist` (see there). -/
def get_segment_body (path : String)
    (on403 : M (Option String)) : M (Option String) := do
  let u := LIVE_PRIMARY_HLS ++ "/" ++ path
  let _token ← get_sxmak_token
  let _gup ← get_gup_id
  let r ← httpCall (.cdn u)
  if r.status = 403 then on403
  else if r.status ≠ 200 then M.pure none
  else M.pure (some r.text)

/-- `SiriusXM.get_segment` at an explicit attempt budget: the 403 branch
refreshes via `get_playlist(path.split('/', 2)[1], False)` and retries with
`max_attempts - 1` while `max_attempts > 0`, else returns `None`. -/
def get_segment (fuel : Nat) (path : String) : Nat → M (Option String)
  | 0 => get_segment_body path (M.pure none)
  | n + 1 => get_segment_body path
      (do
        let chan ← liftE (pyIdxStr (pySplit2 path '/') 1)
        let _ ← get_playlist fuel chan false
        get_segment fuel path n)

/-- `get_segment` at its default attempt budget (`max_attempts=5`). -/
def get_segment_entry (fuel : Nat) (path : String) : M (Option String) :=
  get_segment fuel path 5

end SXM

/-! ### Concrete scenario data -/

/-- One catalog record (the `purejazz` channel). -/
def chanObj : Json := .obj [("name", .str "Pure Jazz"), ("channelId", .str "purejazz"),
  ("channelGuid", .str "guid-pj"), ("siriusChannelNumber", .str "67")]

/-- A one-channel catalog. -/
def chListJson : Json := .arr [chanObj]

/-- A fully well-formed `tune/now-playing-live` body: code 100, marker data
for the song-info extraction, and a LARGE `hlsAudioInfos` entry whose URL
carries the `%Live_Primary_HLS%` placeholder. -/
def npJson : Json := .obj [("ModuleListResponse", .obj [
  ("status", .num 1),
  ("messages", .arr [.obj [("message", .str "Successful"), ("code", .num 100)]]),
  ("moduleList", .obj [("modules", .arr [.obj [("moduleResponse", .obj [
    ("liveChannelData", .obj [
      ("markerLists", .arr [
        .obj [("markers", .arr [.obj [("episode", .obj [("longTitle", .str "PJ")])]])],
        .obj [], .obj [],
        .obj [("markers", .arr [.obj [("cut", .obj [
          ("title", .str "Song"),
          ("artists", .arr [.obj [("name", .str "Artist")]])])]])]]),
      ("hlsAudioInfos", .arr [.obj [
        ("size", .str "LARGE"),
        ("url", .str "%Live_Primary_HLS%/AAC_Data/purejazz/k.m3u8")]])])])]])])])]

/-- A well-formed channel-listing body wrapping `chListJson`. -/
def catalogJson : Json := .obj [("ModuleListResponse", .obj [("moduleList", .obj [
  ("modules", .arr [.obj [("moduleResponse", .obj [("contentData", .obj [
    ("channelListing", .obj [("channels", chListJson)])])])]])])])]

/-- A minimal `status == 1` body for login/resume. -/
def statusOkJson : Json := .obj [("ModuleListResponse", .obj [("status", .num 1)])]

/-- The master-playlist URL produced from `npJson` by the placeholder
substitution. -/
def masterUrl : String :=
  "https://siriusxm-priprodlive.akamaized.net/AAC_Data/purejazz/k.m3u8"

/-- The variant URL: the `v.m3u8` line of the master body joined as a
sibling of `masterUrl`. -/
def variantUrl : String :=
  "https://siriusxm-priprodlive.akamaized.net/AAC_Data/purejazz/v.m3u8"

/-- A jar holding the logged-in and authenticated cookies. -/
def authedJar : Jar := [("SXMAUTHNEW", "t"), ("AWSALB", "a"), ("JSESSIONID", "s")]

/-- Cold-start state: empty jar, empty playlist cache, no catalog. -/
def stCold : St := ⟨[], [], none, 0, []⟩

/-- Scenario-S1 upstream: login and resume succeed and set their cookies,
the catalog POST returns `catalogJson`, now-playing returns `npJson`, the
master fetch returns one `v.m3u8` line, the variant fetch returns one
segment line, and telemetry publishing succeeds. -/
def envC9 : Env := fun c _ =>
  match c with
  | .rest "modify/authentication" =>
    { json := some statusOkJson, setCookies := [("SXMAUTHNEW", "t")] }
  | .rest "resume?OAtrial=false" =>
    { json := some statusOkJson, setCookies := [("AWSALB", "a"), ("JSESSIONID", "s")] }
  | .rest "get" => { json := some catalogJson }
  | .rest _ => { json := some npJson }
  | .cdn u => if u = masterUrl then { text := "v.m3u8" } else { text := "s1.aac" }
  | .aio => {}


example : (SXM.get_playlist 5 "purejazz" true envC9 stCold).1
    = .ok (some "AAC_Data/purejazz/s1.aac") := rfl

example : (SXM.get_playlist 5 "purejazz" true envC9 stCold).2.calls
    = [.cdn variantUrl, .cdn masterUrl, .rest "tune/now-playing-live", .aio,
       .rest "tune/now-playing-live", .rest "get", .rest "resume?OAtrial=false",
       .rest "modify/authentication"] := rfl

/-- Upstream HTTP calls in a trace (telemetry publishes excluded). -/
def upCount (l : List UpCall) : Nat :=
  (l.filter (fun c => match c with | .aio => false | _ => true)).length

/-- `tune/now-playing-live` calls in a trace. -/
def npCount (l : List UpCall) : Nat :=
  (l.filter (fun c => c == .rest "tune/now-playing-live")).length

/-- State with valid-looking session cookies, empty caches. -/
def stAuthed : St := ⟨authedJar, [], none, 0, []⟩

/-- State with session cookies and the catalog already cached. -/
def stChan : St := ⟨authedJar, [], some chListJson, 0, []⟩

/-- Upstream for the C1 counterexample: `resume` answers HTTP 200 with
`status = 0` and sets no cookies. -/
def envC1c : Env := fun c _ =>
  match c with
  | .rest _ => { json := some (.obj [("ModuleListResponse", .obj [("status", .num 0)])]) }
  | _ => {}

/-- Upstream for the C1 witness: `resume` succeeds and sets the
authenticated cookies. -/
def envC1w : Env := fun c _ =>
  match c with
  | .rest _ =>
    { json := some statusOkJson, setCookies := [("AWSALB", "a"), ("JSESSIONID", "s")] }
  | _ => {}

/-- State that is logged in but not yet authenticated. -/
def stLoggedIn : St := ⟨[("SXMAUTHNEW", "t")], [], none, 0, []⟩

/-- Upstream that keeps every variant-playlist fetch at HTTP 403 while
everything else succeeds: now-playing always answers `npJson`, only the
master URL gets a 200 CDN answer. -/
def env403 : Env := fun c _ =>
  match c with
  | .rest _ => { json := some npJson }
  | .cdn u => if u = masterUrl then { text := "v.m3u8" } else { status := 403 }
  | .aio => {}

/-- Warmed-up state: session cookies, catalog cached, variant URL cached
for `purejazz`. -/
def st403 : St := ⟨authedJar, [(.str "purejazz", some variantUrl)], some chListJson, 0, []⟩

/-- Upstream for the C3 counterexample: the CDN answers 403, and after the
first round (calls 0-2) the REST endpoint starts failing with 500, so the
cache-disabled retry cannot re-resolve the playlist URL. -/
def envC3 : Env := fun c i =>
  match c with
  | .rest _ => if i ≤ 2 then { json := some npJson } else { status := 500 }
  | .cdn _ => { status := 403 }
  | .aio => {}

/-- Upstream where every CDN fetch answers 403 and REST answers 500. -/
def envSeg403 : Env := fun c _ =>
  match c with
  | .cdn _ => { status := 403 }
  | .rest _ => { status := 500 }
  | .aio => {}

/-- Upstream for C6: the catalog POST fails (HTTP 500). -/
def envC6 : Env := fun c _ =>
  match c with
  | .rest _ => { status := 500 }
  | _ => {}

/-- Upstream for C7: now-playing answers HTTP 200 whose JSON is truthy and
carries `ModuleListResponse.status` but no `moduleList` — a shape the
telemetry extraction cannot handle. -/
def envC7 : Env := fun c _ =>
  match c with
  | .rest _ => { json := some statusOkJson }
  | _ => {}

/-- Upstream for C10: every REST call fails with HTTP 500, so
`get_playlist_url` returns `None`. -/
def envC10 : Env := fun c _ =>
  match c with
  | .rest _ => { status := 500 }
  | _ => {}

/-- State whose `SXMDATA` cookie URL-decodes to the JSON number `5`. -/
def stSxmdata : St := ⟨[("SXMDATA", "5")], [], none, 0, []⟩

/-- A silent upstream (never consulted by the cookie accessors). -/
def envNone : Env := fun _ _ => {}

/-- Pure value of `get_sxmak_token` as a function of the jar. -/
def sxmakPure (j : Jar) : Option String :=
  match List.lookup "SXMAKTOKEN" j with
  | none => none
  | some v =>
    match (pySplit1 v '=').get? 1 with
    | none => none
    | some p =>
      match (pySplit1 p ',').get? 0 with
      | none => none
      | some q => some q

/-! ### Application lemmas for the monad -/

theorem bind_app {α β : Type} (x : M α) (f : α → M β) (env : Env) (st : St) :
    (x >>= f) env st
      = match x env st with
        | (.ok a, s') => f a env s'
        | (.error e, s') => (.error e, s') := rfl

theorem pure_app {α : Type} (a : α) (env : Env) (st : St) :
    (Pure.pure a : M α) env st = (.ok a, st) := rfl

theorem tryE_app {α : Type} (body handler : M α) (cs : List PyErr) (env : Env) (st : St) :
    tryE body handler cs env st
      = match body env st with
        | (.error e, s') => if cs.contains e then handler env s' else (.error e, s')
        | r => r := rfl

theorem restCall_eq (m : String) (env : Env) (st : St) :
    SXM.restCall m env st
      = (.ok (if (env (.rest m) st.idx).status ≠ 200 then none
              else (env (.rest m) st.idx).json),
         stepSt st (.rest m) (env (.rest m) st.idx)) := by
  show (httpCall (.rest m) >>= fun r =>
      if r.status ≠ 200 then M.pure none else M.pure r.json) env st = _
  rw [bind_app]
  show (if (env (.rest m) st.idx).status ≠ 200 then M.pure none
        else M.pure (env (.rest m) st.idx).json) env (stepSt st (.rest m) (env (.rest m) st.idx)) = _
  split <;> rfl

theorem jarGetM_bind {α : Type} (n : String) (k : String → M α) (env : Env) (st : St) :
    (SXM.jarGetM n >>= k) env st
      = match jarIdx st.jar n with
        | .ok v => k v env st
        | .error e => (.error e, st) := by
  rw [bind_app]
  rcases h : SXM.jarGetM n env st with ⟨r, s2⟩
  unfold SXM.jarGetM at h
  injection h with h1 h2
  subst h2
  rw [h1]
  cases r <;> rfl

theorem liftE_bind {α β : Type} (e : Except PyErr α) (k : α → M β) (env : Env) (st : St) :
    (liftE e >>= k) env st
      = match e with
        | .ok a => k a env st
        | .error er => (.error er, st) := by
  rw [bind_app]
  rcases h : liftE e env st with ⟨r, s2⟩
  unfold liftE at h
  injection h with h1 h2
  subst h2
  rw [h1]
  cases r <;> rfl

theorem sxmak_eq (env : Env) (st : St) :
    SXM.get_sxmak_token env st = (.ok (sxmakPure st.jar), st) := by
  unfold SXM.get_sxmak_token sxmakPure
  rw [tryE_app, jarGetM_bind]
  unfold jarIdx
  cases hl : List.lookup "SXMAKTOKEN" st.jar with
  | none => rfl
  | some v =>
    dsimp only
    rw [liftE_bind]
    unfold pyIdxStr
    cases hp : (pySplit1 v '=').get? 1 with
    | none => rfl
    | some p =>
      dsimp only
      rw [liftE_bind]
      cases hq : (pySplit1 p ',').get? 0 with
      | none => rfl
      | some q => rfl

theorem gup_snd (env : Env) (st : St) : (SXM.get_gup_id env st).2 = st := by
  unfold SXM.get_gup_id
  rw [tryE_app, jarGetM_bind]
  cases h : jarIdx st.jar "SXMDATA" with
  | error e =>
    dsimp only
    split <;> rfl
  | ok v =>
    dsimp only
    rw [liftE_bind]
    cases hj : jsonLoads (pyUnquote v) with
    | error e2 =>
      dsimp only
      split <;> rfl
    | ok j =>
      dsimp only
      rw [liftE_bind]
      cases hg : pySubS j "gupId" with
      | error e3 =>
        dsimp only
        split <;> rfl
      | ok g => rfl

theorem resumeCheck_auth (env : Env) (st : St) (data : Option Json)
    (h : (SXM.resumeCheck data env st).1 = .ok true) :
    authJar (SXM.resumeCheck data env st).2.jar = true := by
  match data with
  | none => exact absurd h (by simp [SXM.resumeCheck, M.pure])
  | some d =>
    simp only [SXM.resumeCheck] at h ⊢
    cases hd : jTruthy d with
    | false =>
      rw [if_pos (by simp [hd])] at h
      exact absurd h (by simp [M.pure])
    | true =>
      rw [if_neg (by simp [hd])] at h ⊢
      rw [tryE_app, liftE_bind] at h ⊢
      cases hs : pySubS d "ModuleListResponse" >>= (pySubS · "status") with
      | error e =>
        rw [hs] at h
        dsimp only at h
        split at h <;> simp [M.pure] at h
      | ok sv =>
        rw [hs] at h
        dsimp only at h ⊢
        simp only [SXM.is_session_authenticated, readSt, bind_app, M.pure] at h ⊢
        simp only [Except.ok.injEq] at h
        exact ((Bool.and_eq_true _ _).mp h).2

theorem resumeCheck_snd (env : Env) (st : St) (data : Option Json) :
    (SXM.resumeCheck data env st).2 = st := by
  match data with
  | none => rfl
  | some d =>
    simp only [SXM.resumeCheck]
    cases hd : jTruthy d with
    | false =>
      rw [if_pos (by simp [hd])]
      rfl
    | true =>
      rw [if_neg (by simp [hd])]
      rw [tryE_app, liftE_bind]
      cases hs : pySubS d "ModuleListResponse" >>= (pySubS · "status") with
      | error e =>
        dsimp only
        split <;> rfl
      | ok sv => rfl

theorem resumePhase_auth (env : Env) (st : St)
    (h : (SXM.resumePhase env st).1 = .ok true) :
    authJar (SXM.resumePhase env st).2.jar = true := by
  unfold SXM.resumePhase at h ⊢
  rw [bind_app, restCall_eq] at h ⊢
  dsimp only at h ⊢
  exact resumeCheck_auth env _ _ h

/-- C1 (amended): `SiriusXM.authenticate` returns success only if, at the
moment it returns, the shared cookie jar satisfies the *authenticated*
predicate (contains both `AWSALB` and `JSESSIONID`). The converse direction
of the original claim is false: see the counterexample. -/
theorem C1_amended (env : Env) (st : St)
    (h : (SXM.authenticate env st).1 = .ok true) :
    authJar (SXM.authenticate env st).2.jar = true := by
  unfold SXM.authenticate at h ⊢
  rw [bind_app] at h ⊢
  simp only [SXM.is_logged_in, readSt] at h ⊢
  cases hb : jarHas st.jar "SXMAUTHNEW" with
  | true =>
    rw [hb] at h
    rw [if_pos rfl] at h ⊢
    rw [bind_app] at h ⊢
    simp only [M.pure] at h ⊢
    rw [if_neg (by simp)] at h ⊢
    exact resumePhase_auth env st h
  | false =>
    rw [hb] at h
    rw [if_neg (by simp)] at h ⊢
    rw [bind_app] at h ⊢
    rcases hl : SXM.login env st with ⟨r, s2⟩
    rw [hl] at h
    cases r with
    | error e => simp at h
    | ok b =>
      dsimp only at h ⊢
      cases b with
      | false =>
        rw [if_pos (by simp)] at h
        simp [M.pure] at h
      | true =>
        rw [if_neg (by simp)] at h ⊢
        exact resumePhase_auth env s2 h

/-- C1 (counterexample): with all three cookies present but a resume
response of HTTP 200 whose body has `status = 0` (and no Set-Cookie),
`SiriusXM.authenticate` returns failure while the jar still satisfies
*authenticated* — refuting the claimed "if and only if". -/
theorem C1_counterexample :
    (SXM.authenticate envC1c stAuthed).1 = .ok false
      ∧ authJar (SXM.authenticate envC1c stAuthed).2.jar = true := ⟨rfl, rfl⟩

/-- C1 (witness): a logged-in jar and a successful resume make
`authenticate` return success, and the amended theorem applies. -/
theorem C1_witness :
    (SXM.authenticate envC1w stLoggedIn).1 = .ok true
      ∧ authJar (SXM.authenticate envC1w stLoggedIn).2.jar = true :=
  ⟨rfl, C1_amended envC1w stLoggedIn rfl⟩

theorem httpCall_eq (c : UpCall) (env : Env) (st : St) :
    httpCall c env st = (.ok (env c st.idx), stepSt st c (env c st.idx)) := rfl

/-- C3 (amended): on HTTP 403 for the variant-playlist GET, `get_playlist`
recurses with cache use disabled but does **not** delete the cache entry
(the playlist cache is unchanged at that point; a stale entry survives
unless the retry later overwrites it), and nothing limits the recursion to
one level; on any other non-200 status it returns `None` (an upstream
error) without retrying. -/
theorem C3_amended (env : Env) (st : St) (name u : String)
    (recurse : String → Bool → M (Option String)) :
    ((env (.cdn u) st.idx).status = 403 →
        SXM.get_playlist_fetch recurse name u env st
            = recurse name false env (stepSt st (.cdn u) (env (.cdn u) st.idx))
          ∧ (stepSt st (.cdn u) (env (.cdn u) st.idx)).playlists = st.playlists)
      ∧ ((env (.cdn u) st.idx).status ≠ 403 → (env (.cdn u) st.idx).status ≠ 200 →
          SXM.get_playlist_fetch recurse name u env st
            = (.ok none, stepSt st (.cdn u) (env (.cdn u) st.idx))) := by
  constructor
  · intro h403
    constructor
    · unfold SXM.get_playlist_fetch
      rw [bind_app, httpCall_eq]
      dsimp only
      rw [if_pos h403]
    · rfl
  · intro h403 h200
    unfold SXM.get_playlist_fetch
    rw [bind_app, httpCall_eq]
    dsimp only
    rw [if_neg h403, if_pos h200]
    rfl

/-- C3 (witness): instantiation of the amended 403 law at a concrete
always-403 upstream. -/
theorem C3_witness :
    (envSeg403 (.cdn "u") stCold.idx).status = 403
      ∧ SXM.get_playlist_fetch (fun _ _ => M.pure none) "purejazz" "u" envSeg403 stCold
          = (M.pure none : M (Option String)) envSeg403
              (stepSt stCold (.cdn "u") (envSeg403 (.cdn "u") stCold.idx))
      ∧ (stepSt stCold (.cdn "u") (envSeg403 (.cdn "u") stCold.idx)).playlists
          = stCold.playlists :=
  ⟨rfl,
   ((C3_amended envSeg403 stCold "purejazz" "u" (fun _ _ => M.pure none)).1 rfl).1,
   ((C3_amended envSeg403 stCold "purejazz" "u" (fun _ _ => M.pure none)).1 rfl).2⟩

/-- C3 (counterexample): a 403 on the cached variant URL followed by a
failing re-resolution. The claim says the cache entry for the channel is
dropped; in fact the run ends (with the `session.get(None)` crash of the
failed retry) with the stale entry still present in the cache. -/
theorem C3_counterexample :
    (SXM.get_playlist 5 "purejazz" true envC3 st403).1 = .error .missingSchema
      ∧ (SXM.get_playlist 5 "purejazz" true envC3 st403).2.playlists
          = [(.str "purejazz", some variantUrl)]
      ∧ (SXM.get_playlist 5 "purejazz" true envC3 st403).2.calls
          = [.rest "tune/now-playing-live", .rest "tune/now-playing-live",
             .cdn variantUrl, .aio, .rest "tune/now-playing-live"] :=
  ⟨rfl, rfl, rfl⟩

/-- C4: `SiriusXM.get_segment` on HTTP 403 with budget left extracts the
second `/`-delimited component of `path` (`path.split('/', 2)[1]`), runs
`get_playlist(channel, use_cache=False)` purely for its side effects
(its value is discarded), and retries `get_segment` with the budget
decremented; the default entry budget is 5; with the budget exhausted it
returns `None` after the GET without a further retry; and on any non-200,
non-403 status it returns `None` without retrying. The hypothesis `hg`
says the `gupId` cookie accessor does not raise in this state (it can,
see C8). -/
theorem C4_theorem (env : Env) (st : St) (path : String) (fuel n : Nat)
    (gv : Option Json) (hg : (SXM.get_gup_id env st).1 = .ok gv) :
    ((env (.cdn (SXM.LIVE_PRIMARY_HLS ++ "/" ++ path)) st.idx).status = 403 →
        (∀ p0 chan rest, pySplit2 path '/' = p0 :: chan :: rest →
          SXM.get_segment fuel path (n + 1) env st
            = (SXM.get_playlist fuel chan false >>= fun _ => SXM.get_segment fuel path n)
                env (stepSt st (.cdn (SXM.LIVE_PRIMARY_HLS ++ "/" ++ path))
                      (env (.cdn (SXM.LIVE_PRIMARY_HLS ++ "/" ++ path)) st.idx)))
          ∧ SXM.get_segment fuel path 0 env st
              = (.ok none, stepSt st (.cdn (SXM.LIVE_PRIMARY_HLS ++ "/" ++ path))
                  (env (.cdn (SXM.LIVE_PRIMARY_HLS ++ "/" ++ path)) st.idx)))
      ∧ ((env (.cdn (SXM.LIVE_PRIMARY_HLS ++ "/" ++ path)) st.idx).status ≠ 403 →
          (env (.cdn (SXM.LIVE_PRIMARY_HLS ++ "/" ++ path)) st.idx).status ≠ 200 →
          SXM.get_segment fuel path (n + 1) env st
            = (.ok none, stepSt st (.cdn (SXM.LIVE_PRIMARY_HLS ++ "/" ++ path))
                (env (.cdn (SXM.LIVE_PRIMARY_HLS ++ "/" ++ path)) st.idx)))
      ∧ SXM.get_segment_entry fuel path = SXM.get_segment fuel path 5 := by
  have hgp : SXM.get_gup_id env st = (.ok gv, st) := by
    have h2 := gup_snd env st
    have h3 : SXM.get_gup_id env st
        = ((SXM.get_gup_id env st).1, (SXM.get_gup_id env st).2) := rfl
    rw [h3, hg, h2]
  have hmain : ∀ k : M (Option String),
      SXM.get_segment_body path k env st
        = (if (env (.cdn (SXM.LIVE_PRIMARY_HLS ++ "/" ++ path)) st.idx).status = 403 then k
           else if (env (.cdn (SXM.LIVE_PRIMARY_HLS ++ "/" ++ path)) st.idx).status ≠ 200
             then M.pure none
             else M.pure (some (env (.cdn (SXM.LIVE_PRIMARY_HLS ++ "/" ++ path)) st.idx).text))
            env (stepSt st (.cdn (SXM.LIVE_PRIMARY_HLS ++ "/" ++ path))
              (env (.cdn (SXM.LIVE_PRIMARY_HLS ++ "/" ++ path)) st.idx)) := by
    intro k
    unfold SXM.get_segment_body
    rw [bind_app, sxmak_eq]
    dsimp only
    rw [bind_app, hgp]
    dsimp only
    rw [bind_app, httpCall_eq]
  refine ⟨fun h403 => ⟨fun p0 chan rest hsplit => ?_, ?_⟩, fun h403 h200 => ?_, rfl⟩
  · show SXM.get_segment_body path _ env st = _
    rw [hmain, if_pos h403, liftE_bind]
    rw [hsplit]
    unfold pyIdxStr
    rfl
  · show SXM.get_segment_body path (M.pure none) env st = _
    rw [hmain, if_pos h403]
    rfl
  · show SXM.get_segment_body path _ env st = _
    rw [hmain, if_neg h403, if_pos h200]
    rfl

/-- C4 (witness): the 403 retry law, budget exhaustion, and the default
budget, instantiated at a concrete always-403 CDN. -/
theorem C4_witness :
    (envSeg403 (.cdn (SXM.LIVE_PRIMARY_HLS ++ "/" ++ "AAC_Data/purejazz/s1.aac"))
        stAuthed.idx).status = 403
      ∧ pySplit2 "AAC_Data/purejazz/s1.aac" '/' = ["AAC_Data", "purejazz", "s1.aac"]
      ∧ SXM.get_segment 0 "AAC_Data/purejazz/s1.aac" 1 envSeg403 stAuthed
          = (SXM.get_playlist 0 "purejazz" false >>= fun _ =>
              SXM.get_segment 0 "AAC_Data/purejazz/s1.aac" 0)
              envSeg403
              (stepSt stAuthed (.cdn (SXM.LIVE_PRIMARY_HLS ++ "/" ++ "AAC_Data/purejazz/s1.aac"))
                (envSeg403 (.cdn (SXM.LIVE_PRIMARY_HLS ++ "/" ++ "AAC_Data/purejazz/s1.aac"))
                  stAuthed.idx))
      ∧ SXM.get_segment 0 "AAC_Data/purejazz/s1.aac" 0 envSeg403 stAuthed
          = (.ok none, stepSt stAuthed
              (.cdn (SXM.LIVE_PRIMARY_HLS ++ "/" ++ "AAC_Data/purejazz/s1.aac"))
              (envSeg403 (.cdn (SXM.LIVE_PRIMARY_HLS ++ "/" ++ "AAC_Data/purejazz/s1.aac"))
                stAuthed.idx))
      ∧ SXM.get_segment_entry 0 "AAC_Data/purejazz/s1.aac"
          = SXM.get_segment 0 "AAC_Data/purejazz/s1.aac" 5 :=
  ⟨rfl, rfl,
   ((C4_theorem envSeg403 stAuthed "AAC_Data/purejazz/s1.aac" 0 0 none rfl).1 rfl).1
     "AAC_Data" "purejazz" ["s1.aac"] rfl,
   ((C4_theorem envSeg403 stAuthed "AAC_Data/purejazz/s1.aac" 0 0 none rfl).1 rfl).2,
   (C4_theorem envSeg403 stAuthed "AAC_Data/purejazz/s1.aac" 0 0 none rfl).2.2⟩

theorem strExt {a b : String} (h : a.data = b.data) : a = b := by
  cases a
  cases b
  exact congrArg String.mk h

theorem dataAppend (a b : String) : (a ++ b).data = a.data ++ b.data := by
  cases a
  cases b
  rfl

theorem strMkData (a : String) : String.mk a.data = a := by
  cases a
  rfl

theorem lSplitOnce_append (c : Char) (l1 l2 : List Char) (h : ∀ x ∈ l1, x ≠ c) :
    lSplitOnce c (l1 ++ c :: l2) = some (l1, l2) := by
  induction l1 with
  | nil => simp [lSplitOnce]
  | cons x xs ih =>
    have hx : x ≠ c := h x (by simp)
    simp only [List.cons_append, lSplitOnce, if_neg hx]
    rw [show xs.append (c :: l2) = xs ++ c :: l2 from rfl]
    rw [ih (fun y hy => h y (by simp [hy]))]

theorem pyRsplitHead_append (a f : String) (h : ∀ x ∈ f.data, x ≠ '/') :
    pyRsplitHead (a ++ "/" ++ f) '/' = a := by
  unfold pyRsplitHead
  have hd : (a ++ "/" ++ f).data = a.data ++ '/' :: f.data := by
    rw [dataAppend, dataAppend]
    simp
  rw [hd]
  have hrev : (a.data ++ '/' :: f.data).reverse = f.data.reverse ++ '/' :: a.data.reverse := by
    simp
  rw [hrev, lSplitOnce_append '/' _ _ (fun x hx => h x (by simpa using hx))]
  simp [strMkData]

theorem pyDropStr_https (rest : String) :
    pyDropStr ("https://" ++ rest) 8 = rest := by
  unfold pyDropStr
  rw [dataAppend]
  rw [show (8 : Nat) = ("https://".data).length from rfl]
  rw [List.drop_left]

theorem pySplit1_append (host p : String) (h : ∀ x ∈ host.data, x ≠ '/') :
    pySplit1 (host ++ "/" ++ p) '/' = [host, p] := by
  unfold pySplit1
  have hd : (host ++ "/" ++ p).data = host.data ++ '/' :: p.data := by
    rw [dataAppend, dataAppend]
    simp
  rw [hd, lSplitOnce_append '/' _ _ h]

theorem basePathOf_eq (host p f : String)
    (hh : ∀ x ∈ host.data, x ≠ '/') (hf : ∀ x ∈ f.data, x ≠ '/') :
    SXM.basePathOf ("https://" ++ host ++ "/" ++ p ++ "/" ++ f) = .ok p := by
  unfold SXM.basePathOf
  rw [pyRsplitHead_append ("https://" ++ host ++ "/" ++ p) f hf]
  have h2 : "https://" ++ host ++ "/" ++ p = "https://" ++ (host ++ "/" ++ p) := by
    apply strExt
    simp [dataAppend]
  rw [h2]
  dsimp only
  rw [pyDropStr_https, pySplit1_append host p hh]

/-- C5 (amended): for a variant URL `https://<host>/<dir>/<file>` whose
host and final segment contain no `/`, the rewriter computes
`base_path = <dir>` exactly (so it has a leading slash, or contains the
CDN host, only if `<dir>` itself does), and rewrites precisely those lines
whose **right-stripped** form ends in `.aac` to `{base_path}/{line}` with
the original line (trailing whitespace included); all other lines are
unchanged. The original claim's reading — lines literally ending in
`.aac`, and a base path never containing the CDN host — is refuted by the
counterexample. -/
theorem C5_amended (host p f text : String)
    (hh : ∀ x ∈ host.data, x ≠ '/') (hf : ∀ x ∈ f.data, x ≠ '/') :
    SXM.basePathOf ("https://" ++ host ++ "/" ++ p ++ "/" ++ f) = .ok p
      ∧ SXM.rewritePlaylist ("https://" ++ host ++ "/" ++ p ++ "/" ++ f) text
          = .ok (joinNl ((splitNl text).map (fun l =>
              if strEndsWith (pyRstrip l) ".aac" then p ++ "/" ++ l else l))) := by
  refine ⟨basePathOf_eq host p f hh hf, ?_⟩
  unfold SXM.rewritePlaylist
  rw [basePathOf_eq host p f hh hf]

/-- C5 (witness): the amended rewrite law instantiated at a concrete CDN
URL and playlist body. -/
theorem C5_witness :
    (∀ x ∈ ("siriusxm-priprodlive.akamaized.net" : String).data, x ≠ '/')
      ∧ (∀ x ∈ ("v.m3u8" : String).data, x ≠ '/')
      ∧ SXM.rewritePlaylist
          ("https://" ++ "siriusxm-priprodlive.akamaized.net" ++ "/" ++ "AAC_Data/purejazz"
            ++ "/" ++ "v.m3u8")
          "a1.aac\n#EXT-X-V"
          = .ok "AAC_Data/purejazz/a1.aac\n#EXT-X-V" :=
  ⟨by decide, by decide,
   ((C5_amended "siriusxm-priprodlive.akamaized.net" "AAC_Data/purejazz" "v.m3u8"
      "a1.aac\n#EXT-X-V" (by decide) (by decide)).2).trans rfl⟩

/-- C5 (counterexample): a line `s1.aac\r` does not end in `.aac`, yet the
code rewrites it (the membership test right-strips the line first); and for
a variant URL whose directory component repeats the CDN host, `base_path`
*is* the CDN host — refuting "leaves all other lines unchanged" and
"does not contain the CDN host" as stated. -/
theorem C5_counterexample :
    strEndsWith (pyRstrip "s1.aac\r") ".aac" = true
      ∧ strEndsWith "s1.aac\r" ".aac" = false
      ∧ SXM.rewritePlaylist variantUrl "s1.aac\r" = .ok "AAC_Data/purejazz/s1.aac\r"
      ∧ SXM.basePathOf
          "https://siriusxm-priprodlive.akamaized.net/siriusxm-priprodlive.akamaized.net/v.m3u8"
          = .ok "siriusxm-priprodlive.akamaized.net" :=
  ⟨rfl, rfl, rfl, rfl⟩

theorem round403 (fuel : Nat) (pl : List (Json × Option String)) (i : Nat) (cs : List UpCall) :
    SXM.get_playlist (fuel + 1) "purejazz" false env403 ⟨authedJar, pl, some chListJson, i, cs⟩
      = SXM.get_playlist fuel "purejazz" false env403
          ⟨authedJar,
           (.str "purejazz", some variantUrl) ::
             pl.filter (fun q => !jKeyEq q.1 (.str "purejazz")),
           some chListJson, i + 5,
           .cdn variantUrl :: .cdn masterUrl :: .rest "tune/now-playing-live" :: .aio ::
             .rest "tune/now-playing-live" :: cs⟩ := rfl

theorem diverges403 :
    ∀ (fuel : Nat) (pl : List (Json × Option String)) (i : Nat) (cs : List UpCall),
    (SXM.get_playlist fuel "purejazz" false env403
        ⟨authedJar, pl, some chListJson, i, cs⟩).1 = .error .outOfFuel
      ∧ upCount cs + fuel
          ≤ upCount (SXM.get_playlist fuel "purejazz" false env403
              ⟨authedJar, pl, some chListJson, i, cs⟩).2.calls := by
  intro fuel
  induction fuel with
  | zero =>
    intro pl i cs
    exact ⟨rfl, Nat.le_of_eq (by rfl)⟩
  | succ n ih =>
    intro pl i cs
    rw [round403]
    refine ⟨(ih _ _ _).1, ?_⟩
    have h2 := (ih ((.str "purejazz", some variantUrl) ::
        pl.filter (fun q => !jKeyEq q.1 (.str "purejazz"))) (i + 5)
        (.cdn variantUrl :: .cdn masterUrl :: .rest "tune/now-playing-live" :: .aio ::
          .rest "tune/now-playing-live" :: cs)).2
    have h3 : upCount (.cdn variantUrl :: .cdn masterUrl :: .rest "tune/now-playing-live" ::
        .aio :: .rest "tune/now-playing-live" :: cs) = upCount cs + 4 := rfl
    omega

theorem step403 (fuel : Nat) :
    SXM.get_playlist (fuel + 1) "purejazz" true env403 st403
      = SXM.get_playlist fuel "purejazz" false env403
          ⟨authedJar, [(.str "purejazz", some variantUrl)], some chListJson, 3,
           [.cdn variantUrl, .aio, .rest "tune/now-playing-live"]⟩ := rfl

/-- C2 (counterexample): the total number of upstream HTTP calls of a
single playlist request is *not* bounded by `5 * k` for any fixed `k`.
Under an upstream that keeps answering HTTP 403 on the variant-playlist GET
(`env403`), the 403 recursion of `get_playlist` is unguarded: for every `k`
there is a recursion depth (fuel) at which the run has already issued more
than `5 * k` upstream HTTP calls, and no fuel suffices for it to return. -/
theorem C2_counterexample :
    ¬ ∃ k : Nat, ∀ fuel : Nat,
        upCount (SXM.get_playlist fuel "purejazz" true env403 st403).2.calls ≤ 5 * k := by
  rintro ⟨k, hk⟩
  have hb := hk (5 * k + 1 + 1)
  rw [step403] at hb
  have hd := diverges403 (5 * k + 1) [(.str "purejazz", some variantUrl)] 3
      [.cdn variantUrl, .aio, .rest "tune/now-playing-live"]
  have h2 := hd.2
  have h3 : upCount [UpCall.cdn variantUrl, .aio, .rest "tune/now-playing-live"] = 2 := rfl
  omega

/-- C2 (amended): the retry budgets of `get_playlist_url` and `get_segment`
are bounded (initial 5), but the HTTP 403 recursion of `get_playlist` is
unguarded, so the claim's bound fails exactly in the case it names: under a
persistent HTTP 403 on the variant-playlist fetch the call never returns
(every recursion depth `fuel + 1` ends in `outOfFuel`) and the number of
upstream HTTP calls grows beyond any bound (at least `fuel`). -/
theorem C2_amended : ∀ fuel : Nat,
    (SXM.get_playlist (fuel + 1) "purejazz" true env403 st403).1 = .error .outOfFuel
      ∧ fuel ≤ upCount (SXM.get_playlist (fuel + 1) "purejazz" true env403 st403).2.calls := by
  intro fuel
  rw [step403]
  have hd := diverges403 fuel [(.str "purejazz", some variantUrl)] 3
      [.cdn variantUrl, .aio, .rest "tune/now-playing-live"]
  refine ⟨hd.1, ?_⟩
  have h2 := hd.2
  omega

/-- C6 (code bug): when the catalog POST fails, `get_channels` returns the
Python tuple `(None, None)` (source line 482) instead of a list; iterating
it in `get_channel` then calls `.get` on `None`, which raises
`AttributeError` — so `get_channel` crashes instead of returning
`(None, None)` as the claim (and the spec) say. -/
theorem C6_theorem :
    (SXM.get_channel "purejazz" envC6 stAuthed).1 = .error .attributeError := rfl

/-- C7 (code bug): a shape-mismatched now-playing body (HTTP 200, truthy
JSON with `ModuleListResponse.status` but no `moduleList`) makes the
telemetry extraction in `get_song_info` raise `KeyError` outside any
`try`, and the exception propagates: the playlist request fails instead of
returning its normal result. -/
theorem C7_theorem :
    (SXM.get_playlist 5 "purejazz" true envC7 stChan).1 = .error .keyError := rfl

/-- C8 (code bug): with an `SXMDATA` cookie whose URL-decoded text is the
valid JSON number `5` (not an object), `get_gup_id` subscripts a non-dict;
the resulting `TypeError` is outside the caught `(KeyError, ValueError)`
set, so the accessor raises instead of returning `None`. -/
theorem C8_theorem :
    (SXM.get_gup_id envNone stSxmdata).1 = .error .typeError := rfl

/-- C9 (counterexample): on the cold-start scenario the playlist request
issues **two** `tune/now-playing-live` GETs — one from the telemetry
side call `get_song_info` (source line 325) and one from
`get_playlist_url`'s own lookup — not the single one the claim states. -/
theorem C9_counterexample :
    npCount (SXM.get_playlist 5 "purejazz" true envC9 stCold).2.calls = 2 := rfl

/-- C9 (amended): on a cold start a `/purejazz.m3u8` playlist request
succeeds and issues exactly: one login POST, one resume POST, one
channel-list POST, two `tune/now-playing-live` GETs, one telemetry
publish, one master-playlist GET, and one variant GET (the trace is listed
most recent first). -/
theorem C9_amended :
    (SXM.get_playlist 5 "purejazz" true envC9 stCold).1
        = .ok (some "AAC_Data/purejazz/s1.aac")
      ∧ (SXM.get_playlist 5 "purejazz" true envC9 stCold).2.calls
          = [.cdn variantUrl, .cdn masterUrl, .rest "tune/now-playing-live", .aio,
             .rest "tune/now-playing-live", .rest "get", .rest "resume?OAtrial=false",
             .rest "modify/authentication"] := ⟨rfl, rfl⟩

/-- C10 (code bug): when the channel resolves but the playlist URL cannot
be obtained (here: `tune/now-playing-live` answers HTTP 500, so
`get_playlist_url` returns `None`), `get_playlist` passes `url = None` to
`session.get`, which raises `requests.exceptions.MissingSchema` — the
request crashes instead of returning the error value the front-end maps to
HTTP 500. -/
theorem C10_theorem :
    (SXM.get_playlist 5 "purejazz" true envC10 stChan).1 = .error .missingSchema := rfl
